import Mathlib

/-!
Verification of `main_v01.py` (hiking-helper): a shallow embedding of
`get_coordinates`, `generate_full_details`, and the calendar-link date logic,
together with proofs of the specification claims.

Conventions of the embedding:
* Python floats appearing in weather data are modelled as rationals (`ℚ`);
  the claims under study only compare them with integer thresholds, where
  IEEE doubles and rationals agree.  `NaN` is outside the model.
* A Python dict passed for `weather_info` is modelled by `WeatherInfo`,
  whose `Option` fields record presence of the corresponding keys
  (`dict.get(k, default)` becomes `Option.getD`).  Python dict truthiness
  (non-empty) becomes `WeatherInfo.isTruthy`.
* A Python run that raises is modelled by `Except.error`; `generate_full_details`
  returns the list of appended `details` lines joined with `"\n"`.
* Numeric-to-string interpolation (`f"{x}"`) is modelled by `toString`;
  no claim depends on the exact digits rendered.
-/

namespace HikingHelper

/-! ### UTF-8 bytes and percent-encoding: model of `urllib.parse.quote`

`urllib.parse.quote` UTF-8-encodes the string and keeps the bytes for
ASCII letters, digits, `_ . - ~` and the default-safe `/`, writing every
other byte as `%XX` with uppercase hex digits. -/

/-- UTF-8 encoding of one scalar value, as a list of bytes (`Nat < 256`). -/
def utf8EncodeChar (c : Char) : List Nat :=
  let v := c.toNat
  if v < 128 then [v]
  else if v < 2048 then [192 + v / 64, 128 + v % 64]
  else if v < 65536 then [224 + v / 4096, 128 + v / 64 % 64, 128 + v % 64]
  else [240 + v / 262144, 128 + v / 4096 % 64, 128 + v / 64 % 64, 128 + v % 64]

/-- Bytes `urllib.parse.quote` leaves unescaped: ASCII letters, digits,
`_` (95), `.` (46), `-` (45), `~` (126), and the default safe `/` (47). -/
def isSafeByte (b : Nat) : Bool :=
  (65 ≤ b && b ≤ 90) || (97 ≤ b && b ≤ 122) || (48 ≤ b && b ≤ 57) ||
    b == 95 || b == 46 || b == 45 || b == 126 || b == 47

/-- Uppercase hexadecimal digit for `v < 16`. -/
def hexDigitUpper (v : Nat) : Char :=
  if v < 10 then Char.ofNat (48 + v) else Char.ofNat (55 + v)

/-- Percent-encoding of a single byte, as `urllib.parse.quote` renders it. -/
def quoteByte (b : Nat) : List Char :=
  if isSafeByte b then [Char.ofNat b]
  else ['%', hexDigitUpper (b / 16), hexDigitUpper (b % 16)]

/-- Model of `urllib.parse.quote(s)` with the default `safe="/"`. -/
def quote (s : String) : String :=
  String.mk ((s.data.flatMap utf8EncodeChar).flatMap quoteByte)

/-- Value of a hexadecimal digit character (either case), if it is one. -/
def hexVal (c : Char) : Option Nat :=
  let v := c.toNat
  if 48 ≤ v && v ≤ 57 then some (v - 48)
  else if 65 ≤ v && v ≤ 70 then some (v - 55)
  else if 97 ≤ v && v ≤ 102 then some (v - 87)
  else none

mutual

/-- Percent-decoding of a character sequence back to bytes: `%XX` pairs
become the byte `XX`; any other character stands for its own code point. -/
def pctDecode : List Char → Option (List Nat)
  | [] => some []
  | c :: rest =>
    if c = '%' then pctEsc rest
    else (pctDecode rest).map fun bs => c.toNat :: bs

/-- The two hexadecimal digits expected after a `%`. -/
def pctEsc : List Char → Option (List Nat)
  | c1 :: c2 :: rest2 =>
    match hexVal c1, hexVal c2 with
    | some hi, some lo => (pctDecode rest2).map fun bs => (16 * hi + lo) :: bs
    | _, _ => none
  | [_] => none
  | [] => none

end

/-- A scalar value as a `Char`, if it is a valid one. -/
def mkCharN (v : Nat) : Option Char :=
  if v.isValidChar then some (Char.ofNat v) else none

mutual

/-- UTF-8 decoding of a byte sequence back to characters. -/
def utf8Decode : List Nat → Option (List Char)
  | [] => some []
  | b :: bs =>
    if b < 128 then
      (mkCharN b).bind fun c => (utf8Decode bs).map fun cs => c :: cs
    else if b < 192 then none
    else if b < 224 then utf8Tail2 b bs
    else if b < 240 then utf8Tail3 b bs
    else if b < 248 then utf8Tail4 b bs
    else none

/-- Continuation bytes of a two-byte sequence with lead byte `b`. -/
def utf8Tail2 (b : Nat) : List Nat → Option (List Char)
  | b1 :: bs1 =>
    if 128 ≤ b1 ∧ b1 < 192 then
      (mkCharN ((b - 192) * 64 + (b1 - 128))).bind fun c =>
        (utf8Decode bs1).map fun cs => c :: cs
    else none
  | [] => none

/-- Continuation bytes of a three-byte sequence with lead byte `b`. -/
def utf8Tail3 (b : Nat) : List Nat → Option (List Char)
  | b1 :: b2 :: bs2 =>
    if (128 ≤ b1 ∧ b1 < 192) ∧ (128 ≤ b2 ∧ b2 < 192) then
      (mkCharN ((b - 224) * 4096 + ((b1 - 128) * 64 + (b2 - 128)))).bind fun c =>
        (utf8Decode bs2).map fun cs => c :: cs
    else none
  | [_] => none
  | [] => none

/-- Continuation bytes of a four-byte sequence with lead byte `b`. -/
def utf8Tail4 (b : Nat) : List Nat → Option (List Char)
  | b1 :: b2 :: b3 :: bs3 =>
    if (128 ≤ b1 ∧ b1 < 192) ∧ ((128 ≤ b2 ∧ b2 < 192) ∧ (128 ≤ b3 ∧ b3 < 192)) then
      (mkCharN ((b - 240) * 262144 +
          ((b1 - 128) * 4096 + ((b2 - 128) * 64 + (b3 - 128))))).bind fun c =>
        (utf8Decode bs3).map fun cs => c :: cs
    else none
  | [_, _] => none
  | [_] => none
  | [] => none

end

/-- Percent-decoding of a full string: `%XX` unescaping followed by UTF-8
decoding (the inverse direction of `quote`). -/
def unquote (s : String) : Option String :=
  (pctDecode s.data).bind fun bs => (utf8Decode bs).map fun cs => String.mk cs

/-! ### Data model for `generate_full_details` -/

/-- The per-day weather snapshot dict built by the front end (line 221 of
`main_v01.py`).  `Option` fields record presence of the dict keys. -/
structure WeatherInfo where
  max_temp : Option ℚ := none
  min_temp : Option ℚ := none
  rain_prob : Option Int := none
  sunrise : Option String := none
  sunset : Option String := none
deriving DecidableEq

/-- Python truthiness of the snapshot dict: it has at least one key. -/
def WeatherInfo.isTruthy (w : WeatherInfo) : Bool :=
  w.max_temp.isSome || w.min_temp.isSome || w.rain_prob.isSome ||
    w.sunrise.isSome || w.sunset.isSome

/-- A `datetime.date`; `generate_full_details` only reads `.month`. -/
structure PyDate where
  year : Nat
  month : Nat
  day : Nat
deriving DecidableEq

/-! ### The Itinerary Content Composer (`generate_full_details`, lines 48-108) -/

/-- `"\n" + "-"*20 + "\n"` (lines 58, 63). -/
def divider : String := "\n" ++ String.mk (List.replicate 20 '-') ++ "\n"

/-- Map-search URL (line 61). -/
def mapUrl (name : String) : String :=
  "https://www.google.com/maps/search/?api=1&query=" ++ quote name

/-- Trail-notes search URL (line 105). -/
def bijiLink (name : String) : String :=
  "https://hiking.biji.co/index.php?q=" ++ (quote name ++ "&node=search")

/-- Lines appended before the weather branch (lines 54-68): optional
custom-notes block, navigation link, destination and optional route line. -/
def preLines (m r n : String) : List String :=
  (if n = "" then [] else ["【📝 行程筆記】", n, divider]) ++
    ("📍 Google Maps 導航：" ++ mapUrl m) :: divider ::
      ("【目的地】" ++ m) ::
        (if r = "" then [] else ["【路線】" ++ r])

/-- Lines appended after the weather branch (lines 96-106): the fixed
gear checklist and the trail-notes search link. -/
def postLines (m : String) : List String :=
  ["\n【🎒 裝備檢查】",
   "□ 證件 / 入山證 / 離線地圖",
   "□ 頭燈 (含備用電池) ★重要",
   "□ 雨具 / 保暖衣物",
   "□ 行動水 / 行動糧",
   "\n🔗 健行筆記搜尋：" ++ bijiLink m]

def forecastHeader : String := "\n【☀️ 當日天氣預報】"

def rainWarning : String := "⚠️ 降雨機率高，務必攜帶雨衣/雨褲！"

def coldWarning : String := "⚠️ 氣溫較低，請攜帶保暖中層。"

/-- Rendering of `weather_info.get('max_temp', '?')` in an f-string:
the number, or the `'?'` placeholder when the key is absent. -/
def showTemp : Option ℚ → String
  | none => "?"
  | some q => toString q

/-- Python slice `s[-5:]` on code points. -/
def takeLast5 (s : String) : String := String.mk (s.data.drop (s.data.length - 5))

/-- The four unconditional lines of the forecast-available branch (lines 77-80). -/
def forecastBase (w : WeatherInfo) : List String :=
  [forecastHeader,
   "🌡️ 氣溫預測：" ++ (showTemp w.min_temp ++ ("°C ~ " ++ (showTemp w.max_temp ++ "°C"))),
   "☔ 降雨機率：" ++ (toString (w.rain_prob.getD 0) ++ "%"),
   "🌅 日出日落：" ++ (takeLast5 (w.sunrise.getD "未知") ++ (" / " ++ takeLast5 (w.sunset.getD "未知")))]

/-- The `TypeError` Python raises at line 83 when `min_t` is the placeholder
string `'?'` and is compared against the integer 10. -/
def typeErrorMsg : String := "TypeError: < not supported between instances of str and int"

/-- Forecast-available branch (lines 70-83).  `rain` defaults to the
integer 0; the rain advisory fires on `rain >= 30`; the cold advisory
compares `min_t < 10`, which raises when `min_t` is the `'?'` placeholder. -/
def forecastLines (w : WeatherInfo) : Except String (List String) :=
  let rain := w.rain_prob.getD 0
  let rainLs := if 30 ≤ rain then [rainWarning] else []
  match w.min_temp with
  | none => Except.error typeErrorMsg
  | some q => Except.ok (forecastBase w ++ (rainLs ++ if q < 10 then [coldWarning] else []))

def seasonalHeader : String := "\n【☀️ 季節性氣候提醒】"

def genericNotice : String := "⚠️ 日期較遠，暫無精準預報，請出發前 3 天再次確認。"

def winterAdvisory : String := "❄️ 冬季高山可能結冰，建議攜帶冰爪。"

def plumAdvisory : String := "🌧️ 梅雨季節，注意午後雷陣雨。"

def typhoonAdvisory : String := "🌪️ 颱風季/夏季，注意防曬與天氣警報。"

/-- No-forecast branch (lines 85-94): generic notice plus the advisory
chain keyed on the month number. -/
def seasonalLines (month : Nat) : List String :=
  [seasonalHeader, genericNotice] ++
    (if month ∈ [12, 1, 2, 3] then [winterAdvisory]
     else if month ∈ [5, 6] then [plumAdvisory]
     else if month ∈ [7, 8, 9] then [typhoonAdvisory]
     else [])

/-- The `details` list built by `generate_full_details`, or the exception
the Python run would raise. -/
def generate_full_details_lines (m r : String) (d : PyDate) (w : Option WeatherInfo)
    (n : String) : Except String (List String) :=
  match w with
  | some wi =>
    if wi.isTruthy then
      (forecastLines wi).map fun ls => preLines m r n ++ (ls ++ postLines m)
    else Except.ok (preLines m r n ++ (seasonalLines d.month ++ postLines m))
  | none => Except.ok (preLines m r n ++ (seasonalLines d.month ++ postLines m))

/-- `generate_full_details` (lines 48-108): `"\n".join(details)`. -/
def generate_full_details (m r : String) (d : PyDate) (w : Option WeatherInfo)
    (n : String) : Except String String :=
  (generate_full_details_lines m r d w n).map (String.intercalate "\n")

/-! ### Calendar link date-range token (lines 236-239) -/

/-- A `datetime.time` as produced by the form (hour and minute). -/
structure PyTime where
  hour : Nat
  minute : Nat
deriving DecidableEq

structure PyDateTime where
  year : Nat
  month : Nat
  day : Nat
  hour : Nat
  minute : Nat
  second : Nat
deriving DecidableEq

/-- `datetime.datetime.combine(date, time)`. -/
def PyDateTime.combine (d : PyDate) (t : PyTime) : PyDateTime :=
  ⟨d.year, d.month, d.day, t.hour, t.minute, 0⟩

def isLeap (y : Nat) : Bool := (y % 4 == 0 && y % 100 != 0) || y % 400 == 0

def daysInMonth (y m : Nat) : Nat :=
  if m = 2 then if isLeap y then 29 else 28
  else if m = 4 ∨ m = 6 ∨ m = 9 ∨ m = 11 then 30
  else 31

def nextDay (d : PyDate) : PyDate :=
  if d.day < daysInMonth d.year d.month then ⟨d.year, d.month, d.day + 1⟩
  else if d.month < 12 then ⟨d.year, d.month + 1, 1⟩
  else ⟨d.year + 1, 1, 1⟩

/-- `start_dt + datetime.timedelta(hours=6)` for a valid datetime
(hour below 24): six hours later, rolling into the next day if needed. -/
def addHours6 (dt : PyDateTime) : PyDateTime :=
  if dt.hour + 6 < 24 then { dt with hour := dt.hour + 6 }
  else
    let d2 := nextDay ⟨dt.year, dt.month, dt.day⟩
    ⟨d2.year, d2.month, d2.day, dt.hour + 6 - 24, dt.minute, dt.second⟩

def pad2 (x : Nat) : String := if x < 10 then "0" ++ toString x else toString x

def pad4 (x : Nat) : String :=
  if x < 10 then "000" ++ toString x
  else if x < 100 then "00" ++ toString x
  else if x < 1000 then "0" ++ toString x
  else toString x

/-- `strftime("%Y%m%dT%H%M%S")`. -/
def strftimeCompact (dt : PyDateTime) : String :=
  pad4 dt.year ++ pad2 dt.month ++ pad2 dt.day ++ "T" ++
    pad2 dt.hour ++ pad2 dt.minute ++ pad2 dt.second

/-- The `dates_str` date-range token (lines 236-239). -/
def dates_str (d : PyDate) (t : PyTime) : String :=
  let s := PyDateTime.combine d t
  strftimeCompact s ++ "/" ++ strftimeCompact (addHours6 s)

/-! ### Location Resolver (`get_coordinates`, lines 10-20) -/

/-- Outcome of one call to the external geocoding collaborator:
a first match, no match (`None`), or a raised exception (timeout included). -/
inductive GeoOutcome where
  | found (lat lon : ℚ) (address : String)
  | noMatch
  | raised (msg : String)
deriving DecidableEq

/-- `get_coordinates`: prefixes the fixed country hint, dispatches to the
collaborator, and maps no-match and every exception to `(None, None, None)`. -/
def get_coordinates (geocode : String → GeoOutcome) (place_name : String) :
    Option ℚ × Option ℚ × Option String :=
  match geocode ("台灣 " ++ place_name) with
  | GeoOutcome.found lat lon addr => (some lat, some lon, some addr)
  | GeoOutcome.noMatch => (none, none, none)
  | GeoOutcome.raised _ => (none, none, none)

/-! ### Helper lemmas -/

theorem take_append_of_le {α : Type} :
    ∀ (k : Nat) (l1 l2 : List α), k ≤ l1.length → (l1 ++ l2).take k = l1.take k
  | 0, _, _, _ => rfl
  | _ + 1, [], _, h => absurd h (by simp)
  | k + 1, a :: l1, l2, h => by
    simp only [List.cons_append, List.take_succ_cons]
    rw [take_append_of_le k l1 l2 (by simp only [List.length_cons] at h; omega)]

/-- Two strings differ when they differ on their first `k` characters;
used with a concrete left part and an arbitrary right part. -/
theorem append_take_ne {p rest t : String} (k : Nat) (hk : k ≤ p.data.length)
    (h : t.data.take k ≠ p.data.take k) : p ++ rest ≠ t := by
  intro e
  apply h
  rw [← e, String.data_append, take_append_of_le k p.data rest.data hk]

theorem not_mem_preLines {m r n t : String} (hn : t ≠ n)
    (h1 : t ≠ "【📝 行程筆記】") (h2 : t ≠ divider)
    (h3 : t.data.take 2 ≠ ("📍 Google Maps 導航：").data.take 2)
    (h4 : t.data.take 2 ≠ ("【目的地】").data.take 2)
    (h5 : t.data.take 2 ≠ ("【路線】").data.take 2) :
    t ∉ preLines m r n := by
  intro hmem
  unfold preLines at hmem
  rcases List.mem_append.1 hmem with hA | hB
  · by_cases hne : n = ""
    · rw [if_pos hne] at hA
      exact List.not_mem_nil t hA
    · rw [if_neg hne] at hA
      simp only [List.mem_cons, List.not_mem_nil, or_false] at hA
      rcases hA with h | h | h
      exacts [h1 h, hn h, h2 h]
  · simp only [List.mem_cons] at hB
    rcases hB with h | h | h | h
    · exact (append_take_ne 2 (by decide) h3) h.symm
    · exact h2 h
    · exact (append_take_ne 2 (by decide) h4) h.symm
    · by_cases hre : r = ""
      · rw [if_pos hre] at h
        exact List.not_mem_nil t h
      · rw [if_neg hre] at h
        simp only [List.mem_cons, List.not_mem_nil, or_false] at h
        exact (append_take_ne 2 (by decide) h5) h.symm

theorem not_mem_postLines {m t : String}
    (h1 : t ≠ "\n【🎒 裝備檢查】") (h2 : t ≠ "□ 證件 / 入山證 / 離線地圖")
    (h3 : t ≠ "□ 頭燈 (含備用電池) ★重要") (h4 : t ≠ "□ 雨具 / 保暖衣物")
    (h5 : t ≠ "□ 行動水 / 行動糧")
    (h6 : t.data.take 2 ≠ ("\n🔗 健行筆記搜尋：").data.take 2) :
    t ∉ postLines m := by
  intro hmem
  unfold postLines at hmem
  simp only [List.mem_cons, List.not_mem_nil, or_false] at hmem
  rcases hmem with h | h | h | h | h | h
  exacts [h1 h, h2 h, h3 h, h4 h, h5 h, (append_take_ne 2 (by decide) h6) h.symm]

theorem not_mem_forecastBase {w : WeatherInfo} {t : String}
    (h1 : t ≠ forecastHeader)
    (h2 : t.data.take 2 ≠ ("🌡️ 氣溫預測：").data.take 2)
    (h3 : t.data.take 2 ≠ ("☔ 降雨機率：").data.take 2)
    (h4 : t.data.take 2 ≠ ("🌅 日出日落：").data.take 2) :
    t ∉ forecastBase w := by
  intro hmem
  unfold forecastBase at hmem
  simp only [List.mem_cons, List.not_mem_nil, or_false] at hmem
  rcases hmem with h | h | h | h
  exacts [h1 h, (append_take_ne 2 (by decide) h2) h.symm,
    (append_take_ne 2 (by decide) h3) h.symm, (append_take_ne 2 (by decide) h4) h.symm]

theorem header_mem_forecastBase (w : WeatherInfo) : forecastHeader ∈ forecastBase w := by
  unfold forecastBase
  exact List.mem_cons_self _ _

theorem header_mem_seasonal (mo : Nat) : seasonalHeader ∈ seasonalLines mo := by
  unfold seasonalLines
  exact List.mem_append_left _ (List.mem_cons_self _ _)

theorem generic_mem_seasonal (mo : Nat) : genericNotice ∈ seasonalLines mo := by
  unfold seasonalLines
  exact List.mem_append_left _ (by decide)

theorem winter_mem_seasonal (mo : Nat) :
    winterAdvisory ∈ seasonalLines mo ↔ mo ∈ [12, 1, 2, 3] := by
  unfold seasonalLines
  split_ifs with hw hp ht
  exacts [iff_of_true (by decide) hw, iff_of_false (by decide) hw,
    iff_of_false (by decide) hw, iff_of_false (by decide) hw]

theorem plum_mem_seasonal (mo : Nat) :
    plumAdvisory ∈ seasonalLines mo ↔ mo ∈ [5, 6] := by
  unfold seasonalLines
  split_ifs with hw hp ht
  · refine iff_of_false (by decide) fun h56 => ?_
    simp only [List.mem_cons, List.not_mem_nil, or_false] at hw h56
    omega
  · exact iff_of_true (by decide) hp
  · exact iff_of_false (by decide) hp
  · exact iff_of_false (by decide) hp

theorem typhoon_mem_seasonal (mo : Nat) :
    typhoonAdvisory ∈ seasonalLines mo ↔ mo ∈ [7, 8, 9] := by
  unfold seasonalLines
  split_ifs with hw hp ht
  · refine iff_of_false (by decide) fun h79 => ?_
    simp only [List.mem_cons, List.not_mem_nil, or_false] at hw h79
    omega
  · refine iff_of_false (by decide) fun h79 => ?_
    simp only [List.mem_cons, List.not_mem_nil, or_false] at hp h79
    omega
  · exact iff_of_true (by decide) ht
  · exact iff_of_false (by decide) ht

theorem not_mem_seasonal {mo : Nat} {t : String}
    (h1 : t ≠ seasonalHeader) (h2 : t ≠ genericNotice) (h3 : t ≠ winterAdvisory)
    (h4 : t ≠ plumAdvisory) (h5 : t ≠ typhoonAdvisory) :
    t ∉ seasonalLines mo := by
  intro hmem
  unfold seasonalLines at hmem
  split_ifs at hmem <;>
    simp only [List.mem_append, List.mem_cons, List.not_mem_nil, or_false] at hmem <;>
    tauto

/-! ### Round-trip of percent-encoding -/

theorem utf8Decode_one (b0 : Nat) (bs : List Nat) (h : b0 < 128) :
    utf8Decode (b0 :: bs) =
      (mkCharN b0).bind fun c => (utf8Decode bs).map fun cs => c :: cs := by
  rw [utf8Decode]
  exact if_pos h

theorem utf8Decode_two (b0 b1 : Nat) (bs : List Nat)
    (h0 : 192 ≤ b0) (h0b : b0 < 224) (h1 : 128 ≤ b1) (h1b : b1 < 192) :
    utf8Decode (b0 :: b1 :: bs) =
      (mkCharN ((b0 - 192) * 64 + (b1 - 128))).bind fun c =>
        (utf8Decode bs).map fun cs => c :: cs := by
  rw [utf8Decode]
  rw [if_neg (by omega), if_neg (by omega), if_pos (by omega)]
  rw [utf8Tail2]
  exact if_pos ⟨h1, h1b⟩

theorem utf8Decode_three (b0 b1 b2 : Nat) (bs : List Nat)
    (h0 : 224 ≤ b0) (h0b : b0 < 240) (h1 : 128 ≤ b1) (h1b : b1 < 192)
    (h2 : 128 ≤ b2) (h2b : b2 < 192) :
    utf8Decode (b0 :: b1 :: b2 :: bs) =
      (mkCharN ((b0 - 224) * 4096 + ((b1 - 128) * 64 + (b2 - 128)))).bind fun c =>
        (utf8Decode bs).map fun cs => c :: cs := by
  rw [utf8Decode]
  rw [if_neg (by omega), if_neg (by omega), if_neg (by omega), if_pos (by omega)]
  rw [utf8Tail3]
  exact if_pos ⟨⟨h1, h1b⟩, h2, h2b⟩

theorem utf8Decode_four (b0 b1 b2 b3 : Nat) (bs : List Nat)
    (h0 : 240 ≤ b0) (h0b : b0 < 248) (h1 : 128 ≤ b1) (h1b : b1 < 192)
    (h2 : 128 ≤ b2) (h2b : b2 < 192) (h3 : 128 ≤ b3) (h3b : b3 < 192) :
    utf8Decode (b0 :: b1 :: b2 :: b3 :: bs) =
      (mkCharN ((b0 - 240) * 262144 +
          ((b1 - 128) * 4096 + ((b2 - 128) * 64 + (b3 - 128))))).bind fun c =>
        (utf8Decode bs).map fun cs => c :: cs := by
  rw [utf8Decode]
  rw [if_neg (by omega), if_neg (by omega), if_neg (by omega), if_neg (by omega),
    if_pos (by omega)]
  rw [utf8Tail4]
  exact if_pos ⟨⟨h1, h1b⟩, ⟨h2, h2b⟩, h3, h3b⟩

theorem utf8EncodeChar_lt (c : Char) : ∀ b ∈ utf8EncodeChar c, b < 256 := by
  intro b hbm
  have hval : c.toNat.isValidChar := c.valid
  have hval2 : c.toNat < 55296 ∨ (57343 < c.toNat ∧ c.toNat < 1114112) := hval
  have e1 := Nat.div_add_mod c.toNat 64
  have e2 : c.toNat % 64 < 64 := Nat.mod_lt _ (by norm_num)
  have e3 := Nat.div_add_mod (c.toNat / 64) 64
  have e4 : c.toNat / 64 / 64 = c.toNat / 4096 := by
    rw [Nat.div_div_eq_div_mul]
  have e5 : c.toNat / 64 % 64 < 64 := Nat.mod_lt _ (by norm_num)
  have e6 := Nat.div_add_mod (c.toNat / 4096) 64
  have e7 : c.toNat / 4096 / 64 = c.toNat / 262144 := by
    rw [Nat.div_div_eq_div_mul]
  have e8 : c.toNat / 4096 % 64 < 64 := Nat.mod_lt _ (by norm_num)
  rw [e4] at e3
  rw [e7] at e6
  simp only [utf8EncodeChar] at hbm
  split_ifs at hbm with h1 h2 h3
  · simp only [List.mem_cons, List.not_mem_nil, or_false] at hbm
    subst hbm
    omega
  · simp only [List.mem_cons, List.not_mem_nil, or_false] at hbm
    rcases hbm with rfl | rfl <;> omega
  · simp only [List.mem_cons, List.not_mem_nil, or_false] at hbm
    rcases hbm with rfl | rfl | rfl <;> omega
  · simp only [List.mem_cons, List.not_mem_nil, or_false] at hbm
    rcases hbm with rfl | rfl | rfl | rfl <;> omega

theorem utf8Decode_encodeChar (c : Char) (bs : List Nat) :
    utf8Decode (utf8EncodeChar c ++ bs) = (utf8Decode bs).map fun cs => c :: cs := by
  have hval : c.toNat.isValidChar := c.valid
  have hval2 : c.toNat < 55296 ∨ (57343 < c.toNat ∧ c.toNat < 1114112) := hval
  have e1 := Nat.div_add_mod c.toNat 64
  have e2 : c.toNat % 64 < 64 := Nat.mod_lt _ (by norm_num)
  have e3 := Nat.div_add_mod (c.toNat / 64) 64
  have e4 : c.toNat / 64 / 64 = c.toNat / 4096 := by
    rw [Nat.div_div_eq_div_mul]
  have e5 : c.toNat / 64 % 64 < 64 := Nat.mod_lt _ (by norm_num)
  have e6 := Nat.div_add_mod (c.toNat / 4096) 64
  have e7 : c.toNat / 4096 / 64 = c.toNat / 262144 := by
    rw [Nat.div_div_eq_div_mul]
  have e8 : c.toNat / 4096 % 64 < 64 := Nat.mod_lt _ (by norm_num)
  rw [e4] at e3
  rw [e7] at e6
  simp only [utf8EncodeChar]
  by_cases h1 : c.toNat < 128
  · rw [if_pos h1, List.singleton_append, utf8Decode_one _ _ h1, mkCharN,
      if_pos hval, Char.ofNat_toNat]
    rfl
  · by_cases h2 : c.toNat < 2048
    · rw [if_neg h1, if_pos h2, List.cons_append, List.singleton_append,
        utf8Decode_two (192 + c.toNat / 64) (128 + c.toNat % 64) bs
          (by omega) (by omega) (by omega) (by omega)]
      rw [show (192 + c.toNat / 64 - 192) * 64 + (128 + c.toNat % 64 - 128) = c.toNat by omega]
      rw [mkCharN, if_pos hval, Char.ofNat_toNat]
      rfl
    · by_cases h3 : c.toNat < 65536
      · rw [if_neg h1, if_neg h2, if_pos h3, List.cons_append, List.cons_append,
          List.singleton_append,
          utf8Decode_three (224 + c.toNat / 4096) (128 + c.toNat / 64 % 64)
            (128 + c.toNat % 64) bs
            (by omega) (by omega) (by omega) (by omega) (by omega) (by omega)]
        rw [show (224 + c.toNat / 4096 - 224) * 4096 +
            ((128 + c.toNat / 64 % 64 - 128) * 64 + (128 + c.toNat % 64 - 128)) =
              c.toNat by omega]
        rw [mkCharN, if_pos hval, Char.ofNat_toNat]
        rfl
      · rw [if_neg h1, if_neg h2, if_neg h3, List.cons_append, List.cons_append,
          List.cons_append, List.singleton_append,
          utf8Decode_four (240 + c.toNat / 262144) (128 + c.toNat / 4096 % 64)
            (128 + c.toNat / 64 % 64) (128 + c.toNat % 64) bs
            (by omega) (by omega) (by omega) (by omega) (by omega) (by omega)
            (by omega) (by omega)]
        rw [show (240 + c.toNat / 262144 - 240) * 262144 +
            ((128 + c.toNat / 4096 % 64 - 128) * 4096 +
              ((128 + c.toNat / 64 % 64 - 128) * 64 + (128 + c.toNat % 64 - 128))) =
              c.toNat by omega]
        rw [mkCharN, if_pos hval, Char.ofNat_toNat]
        rfl

theorem utf8Decode_encode (l : List Char) :
    utf8Decode (l.flatMap utf8EncodeChar) = some l := by
  induction l with
  | nil => rfl
  | cons c cs ih =>
    rw [List.flatMap_cons, utf8Decode_encodeChar, ih]
    rfl

theorem hexVal_hexDigitUpper : ∀ v, v < 16 → hexVal (hexDigitUpper v) = some v := by decide

set_option maxRecDepth 2048 in
theorem safe_byte_facts : ∀ b, b < 256 → isSafeByte b = true →
    (Char.ofNat b).toNat = b ∧ Char.ofNat b ≠ '%' := by decide

theorem pctDecode_cons_safe {b : Nat} (hb : b < 256) (hs : isSafeByte b = true)
    (cs : List Char) :
    pctDecode (Char.ofNat b :: cs) = (pctDecode cs).map fun xs => b :: xs := by
  obtain ⟨hcb, hne⟩ := safe_byte_facts b hb hs
  rw [pctDecode]
  rw [if_neg hne, hcb]

theorem pctDecode_quote_flatMap :
    ∀ (bs : List Nat), (∀ b ∈ bs, b < 256) → ∀ (cs : List Char),
      pctDecode (bs.flatMap quoteByte ++ cs) = (pctDecode cs).map fun xs => bs ++ xs := by
  intro bs
  induction bs with
  | nil =>
    intro _ cs
    simp only [List.flatMap_nil, List.nil_append]
    cases pctDecode cs <;> rfl
  | cons b bs ih =>
    intro hb cs
    have hb0 : b < 256 := hb b (List.mem_cons_self _ _)
    have hbrest : ∀ x ∈ bs, x < 256 := fun x hx => hb x (List.mem_cons_of_mem _ hx)
    rw [List.flatMap_cons, List.append_assoc]
    by_cases hs : isSafeByte b = true
    · rw [quoteByte, if_pos hs, List.singleton_append, pctDecode_cons_safe hb0 hs,
        ih hbrest cs]
      cases pctDecode cs <;> rfl
    · rw [quoteByte, if_neg hs, List.cons_append, List.cons_append, List.singleton_append]
      rw [pctDecode]
      rw [if_pos rfl]
      rw [pctEsc]
      rw [hexVal_hexDigitUpper (b / 16) (Nat.div_lt_of_lt_mul (by omega)),
        hexVal_hexDigitUpper (b % 16) (Nat.mod_lt _ (by norm_num))]
      show ((pctDecode (bs.flatMap quoteByte ++ cs)).map
          fun xs => (16 * (b / 16) + b % 16) :: xs) = _
      rw [Nat.div_add_mod, ih hbrest cs]
      cases pctDecode cs <;> rfl

theorem quote_unquote_roundtrip (s : String) : unquote (quote s) = some s := by
  obtain ⟨l⟩ := s
  have hb : ∀ b ∈ l.flatMap utf8EncodeChar, b < 256 := by
    intro b hbm
    obtain ⟨c, _, hbc⟩ := List.mem_flatMap.1 hbm
    exact utf8EncodeChar_lt c b hbc
  have h1 := pctDecode_quote_flatMap (l.flatMap utf8EncodeChar) hb []
  rw [List.append_nil] at h1
  show (pctDecode ((l.flatMap utf8EncodeChar).flatMap quoteByte)).bind
      (fun bs => (utf8Decode bs).map fun cs => String.mk cs) = some ⟨l⟩
  rw [h1]
  show (utf8Decode (l.flatMap utf8EncodeChar ++ [])).map (fun cs => String.mk cs) = some ⟨l⟩
  rw [List.append_nil, utf8Decode_encode]
  rfl

/-! ### Claim theorems -/

/-- C1: the claim says `generate_full_details` has no failure path and that
absent optional snapshot fields degrade to "no data" or a placeholder glyph.
The code contradicts this: with a non-empty snapshot whose `min_temp` key is
absent, `min_t` is the placeholder string `'?'` and line 83 compares it with
the integer 10, raising `TypeError`.  This theorem evaluates the embedding at
such a failing input. -/
theorem C1_composer_raises_on_missing_min_temp :
    generate_full_details "合歡山主峰" "" ⟨2024, 1, 15⟩ (some { rain_prob := some 50 }) "" =
      Except.error typeErrorMsg := rfl

/-- C6: the composer is a pure, deterministic function of its five arguments;
in the embedding (whose faithfulness rests on the source reading no external
state and mutating nothing but its local list) two calls on identical
arguments are literally the same value. -/
theorem C6_composer_deterministic (m r : String) (d : PyDate) (w : Option WeatherInfo)
    (n : String) :
    generate_full_details m r d w n = generate_full_details m r d w n := rfl

/-- C7: the calendar date-range token is built from the start datetime and
start-plus-six-hours, in compact `YYYYMMDDTHHMMSS` form joined with `/`;
at start date 2024-03-01, start time 06:00 the end is 2024-03-01 12:00:00 and
the token is `20240301T060000/20240301T120000`. -/
theorem C7_calendar_range_token :
    dates_str ⟨2024, 3, 1⟩ ⟨6, 0⟩ = "20240301T060000/20240301T120000" ∧
      addHours6 (PyDateTime.combine ⟨2024, 3, 1⟩ ⟨6, 0⟩) = ⟨2024, 3, 1, 12, 0, 0⟩ :=
  ⟨rfl, rfl⟩

/-- C9: whenever the geocoding collaborator finds no match or raises
(timeouts included), `get_coordinates` returns the all-`None` triple instead
of propagating the fault. -/
theorem C9_resolver_swallows_failures (geocode : String → GeoOutcome) (p : String)
    (h : geocode ("台灣 " ++ p) = GeoOutcome.noMatch ∨
      ∃ msg, geocode ("台灣 " ++ p) = GeoOutcome.raised msg) :
    get_coordinates geocode p = (none, none, none) := by
  unfold get_coordinates
  rcases h with h | ⟨msg, h⟩ <;> rw [h]

/-- Witness for C9 at a concrete collaborator and place name. -/
theorem C9_resolver_swallows_failures_witness :
    get_coordinates (fun _ => GeoOutcome.noMatch) "合歡山" = (none, none, none) :=
  C9_resolver_swallows_failures (fun _ => GeoOutcome.noMatch) "合歡山" (Or.inl rfl)

/-- C10: an empty snapshot dict is falsy in Python, so the composer routes it
to the seasonal no-forecast branch and the output is identical to passing no
snapshot at all. -/
theorem C10_empty_snapshot_is_no_snapshot (m r : String) (d : PyDate) (n : String) :
    generate_full_details m r d (some {}) n = generate_full_details m r d none n := rfl

/-- C2: in the forecast-available branch, for a snapshot whose rain
probability is an integer between 0 and 100 (and whose composition returns
a result), the rain-gear warning line is emitted iff that probability is at
least 30.  The custom-notes line is the only input-controlled line, so the
claim is read with the proviso that the notes are not themselves the exact
warning string. -/
theorem C2_rain_warning_iff (m r : String) (d : PyDate) (w : WeatherInfo) (n : String)
    (p : Int) (hp : w.rain_prob = some p) (hlo : 0 ≤ p) (hhi : p ≤ 100)
    (hn : n ≠ rainWarning) (out : List String)
    (hok : generate_full_details_lines m r d (some w) n = Except.ok out) :
    rainWarning ∈ out ↔ 30 ≤ p := by
  have htr : w.isTruthy = true := by
    unfold WeatherInfo.isTruthy
    rw [hp]
    simp
  simp only [generate_full_details_lines] at hok
  rw [if_pos htr] at hok
  cases hmin : w.min_temp with
  | none =>
    simp only [forecastLines, hmin, Except.map] at hok
    exact Except.noConfusion hok
  | some q =>
    simp only [forecastLines, hmin, hp, Option.getD_some, Except.map] at hok
    injection hok with hout
    subst hout
    constructor
    · intro hmem
      rcases List.mem_append.1 hmem with h | h
      · exact absurd h (not_mem_preLines (Ne.symm hn) (by decide) (by decide) (by decide)
          (by decide) (by decide))
      · rcases List.mem_append.1 h with h | h
        · rcases List.mem_append.1 h with h | h
          · exact absurd h (not_mem_forecastBase (by decide) (by decide) (by decide) (by decide))
          · rcases List.mem_append.1 h with h | h
            · by_cases h30 : (30 : Int) ≤ p
              · exact h30
              · rw [if_neg h30] at h
                exact absurd h (List.not_mem_nil _)
            · by_cases hc : q < 10
              · rw [if_pos hc] at h
                simp only [List.mem_cons, List.not_mem_nil, or_false] at h
                exact absurd h (by decide)
              · rw [if_neg hc] at h
                exact absurd h (List.not_mem_nil _)
        · exact absurd h (not_mem_postLines (by decide) (by decide) (by decide) (by decide)
            (by decide) (by decide))
    · intro h30
      refine List.mem_append.2 (Or.inr (List.mem_append.2 (Or.inl
        (List.mem_append.2 (Or.inr (List.mem_append.2 (Or.inl ?_)))))))
      rw [if_pos h30]
      exact List.mem_cons_self _ _

/-- Witness for C2: rain probability exactly 30 emits the warning. -/
theorem C2_rain_warning_iff_witness :
    rainWarning ∈
      ((generate_full_details_lines "合歡山主峰" "" ⟨2024, 1, 15⟩
          (some { min_temp := some 15, rain_prob := some 30 }) "").toOption.getD []) :=
  (C2_rain_warning_iff "合歡山主峰" "" ⟨2024, 1, 15⟩
      { min_temp := some 15, rain_prob := some 30 } "" 30 rfl (by decide) (by decide)
      (by decide) _ rfl).2 (by decide)

/-- C3: in the forecast-available branch, for a snapshot whose min
temperature is a number, the cold-weather warning line is emitted iff that
temperature is strictly below 10, independently of the rain advisory; read
with the proviso that the custom notes are not the exact warning string. -/
theorem C3_cold_warning_iff (m r : String) (d : PyDate) (w : WeatherInfo) (n : String)
    (q : ℚ) (hq : w.min_temp = some q) (hn : n ≠ coldWarning) (out : List String)
    (hok : generate_full_details_lines m r d (some w) n = Except.ok out) :
    coldWarning ∈ out ↔ q < 10 := by
  have htr : w.isTruthy = true := by
    unfold WeatherInfo.isTruthy
    rw [hq]
    simp
  simp only [generate_full_details_lines] at hok
  rw [if_pos htr] at hok
  simp only [forecastLines, hq, Except.map] at hok
  injection hok with hout
  subst hout
  constructor
  · intro hmem
    rcases List.mem_append.1 hmem with h | h
    · exact absurd h (not_mem_preLines (Ne.symm hn) (by decide) (by decide) (by decide)
        (by decide) (by decide))
    · rcases List.mem_append.1 h with h | h
      · rcases List.mem_append.1 h with h | h
        · exact absurd h (not_mem_forecastBase (by decide) (by decide) (by decide) (by decide))
        · rcases List.mem_append.1 h with h | h
          · by_cases h30 : (30 : Int) ≤ w.rain_prob.getD 0
            · rw [if_pos h30] at h
              simp only [List.mem_cons, List.not_mem_nil, or_false] at h
              exact absurd h (by decide)
            · rw [if_neg h30] at h
              exact absurd h (List.not_mem_nil _)
          · by_cases hc : q < 10
            · exact hc
            · rw [if_neg hc] at h
              exact absurd h (List.not_mem_nil _)
      · exact absurd h (not_mem_postLines (by decide) (by decide) (by decide) (by decide)
          (by decide) (by decide))
  · intro hc
    refine List.mem_append.2 (Or.inr (List.mem_append.2 (Or.inl
      (List.mem_append.2 (Or.inr (List.mem_append.2 (Or.inr ?_)))))))
    rw [if_pos hc]
    exact List.mem_cons_self _ _

/-- Witness for C3: min temperature 9.9 together with rain probability 60
emits the cold warning (alongside the rain one). -/
theorem C3_cold_warning_iff_witness :
    coldWarning ∈
      ((generate_full_details_lines "合歡山主峰" "" ⟨2024, 1, 15⟩
          (some { min_temp := some (9.9 : ℚ), rain_prob := some 60 }) "").toOption.getD []) :=
  (C3_cold_warning_iff "合歡山主峰" "" ⟨2024, 1, 15⟩
      { min_temp := some (9.9 : ℚ), rain_prob := some 60 } "" (9.9 : ℚ) rfl (by decide)
      _ rfl).2 (by norm_num)

/-- C4: with no forecast snapshot, the output carries the generic
confirm-closer-to-departure notice and exactly the season-keyed advisory of
the month of the date: winter advisory iff month in 12/1/2/3, plum-rain
advisory iff month in 5/6, typhoon advisory iff month in 7/8/9 (so months
4, 10, 11 add none); read with the proviso that the custom notes are not
one of those exact strings. -/
theorem C4_seasonal_mapping (m r : String) (d : PyDate) (n : String)
    (h1 : n ≠ genericNotice) (h2 : n ≠ winterAdvisory) (h3 : n ≠ plumAdvisory)
    (h4 : n ≠ typhoonAdvisory) (out : List String)
    (hok : generate_full_details_lines m r d none n = Except.ok out) :
    genericNotice ∈ out ∧
      (winterAdvisory ∈ out ↔ d.month ∈ [12, 1, 2, 3]) ∧
      (plumAdvisory ∈ out ↔ d.month ∈ [5, 6]) ∧
      (typhoonAdvisory ∈ out ↔ d.month ∈ [7, 8, 9]) := by
  unfold generate_full_details_lines at hok
  injection hok with hout
  subst hout
  refine ⟨List.mem_append.2 (Or.inr (List.mem_append.2 (Or.inl
    (generic_mem_seasonal d.month)))), ?_, ?_, ?_⟩
  · constructor
    · intro hmem
      rcases List.mem_append.1 hmem with h | h
      · exact absurd h (not_mem_preLines (Ne.symm h2) (by decide) (by decide) (by decide)
          (by decide) (by decide))
      · rcases List.mem_append.1 h with h | h
        · exact (winter_mem_seasonal d.month).1 h
        · exact absurd h (not_mem_postLines (by decide) (by decide) (by decide) (by decide)
            (by decide) (by decide))
    · intro hmo
      exact List.mem_append.2 (Or.inr (List.mem_append.2 (Or.inl
        ((winter_mem_seasonal d.month).2 hmo))))
  · constructor
    · intro hmem
      rcases List.mem_append.1 hmem with h | h
      · exact absurd h (not_mem_preLines (Ne.symm h3) (by decide) (by decide) (by decide)
          (by decide) (by decide))
      · rcases List.mem_append.1 h with h | h
        · exact (plum_mem_seasonal d.month).1 h
        · exact absurd h (not_mem_postLines (by decide) (by decide) (by decide) (by decide)
            (by decide) (by decide))
    · intro hmo
      exact List.mem_append.2 (Or.inr (List.mem_append.2 (Or.inl
        ((plum_mem_seasonal d.month).2 hmo))))
  · constructor
    · intro hmem
      rcases List.mem_append.1 hmem with h | h
      · exact absurd h (not_mem_preLines (Ne.symm h4) (by decide) (by decide) (by decide)
          (by decide) (by decide))
      · rcases List.mem_append.1 h with h | h
        · exact (typhoon_mem_seasonal d.month).1 h
        · exact absurd h (not_mem_postLines (by decide) (by decide) (by decide) (by decide)
            (by decide) (by decide))
    · intro hmo
      exact List.mem_append.2 (Or.inr (List.mem_append.2 (Or.inl
        ((typhoon_mem_seasonal d.month).2 hmo))))

/-- Witness for C4: January yields the winter/crampon advisory. -/
theorem C4_seasonal_mapping_witness :
    winterAdvisory ∈
      ((generate_full_details_lines "合歡山主峰" "" ⟨2024, 1, 15⟩ none "").toOption.getD []) :=
  ((C4_seasonal_mapping "合歡山主峰" "" ⟨2024, 1, 15⟩ "" (by decide) (by decide) (by decide)
      (by decide) _ rfl).2.1).2 (by decide)

/-- C5: whenever composition returns a result, exactly one of the two
weather section headers appears in it: the forecast-details header or the
seasonal no-forecast header; read with the proviso that the custom notes
are not one of those exact header strings. -/
theorem C5_exactly_one_weather_section (m r : String) (d : PyDate) (w : Option WeatherInfo)
    (n : String) (h1 : n ≠ forecastHeader) (h2 : n ≠ seasonalHeader) (out : List String)
    (hok : generate_full_details_lines m r d w n = Except.ok out) :
    (forecastHeader ∈ out ∧ seasonalHeader ∉ out) ∨
      (forecastHeader ∉ out ∧ seasonalHeader ∈ out) := by
  have hseason : ∀ mo : Nat,
      forecastHeader ∉ preLines m r n ++ (seasonalLines mo ++ postLines m) ∧
        seasonalHeader ∈ preLines m r n ++ (seasonalLines mo ++ postLines m) := by
    intro mo
    constructor
    · intro hmem
      rcases List.mem_append.1 hmem with h | h
      · exact absurd h (not_mem_preLines (Ne.symm h1) (by decide) (by decide) (by decide)
          (by decide) (by decide))
      · rcases List.mem_append.1 h with h | h
        · exact absurd h (not_mem_seasonal (by decide) (by decide) (by decide) (by decide)
            (by decide))
        · exact absurd h (not_mem_postLines (by decide) (by decide) (by decide) (by decide)
            (by decide) (by decide))
    · exact List.mem_append.2 (Or.inr (List.mem_append.2 (Or.inl (header_mem_seasonal mo))))
  cases w with
  | none =>
    unfold generate_full_details_lines at hok
    injection hok with hout
    subst hout
    exact Or.inr (hseason d.month)
  | some wi =>
    simp only [generate_full_details_lines] at hok
    by_cases htr : wi.isTruthy = true
    · rw [if_pos htr] at hok
      cases hmin : wi.min_temp with
      | none =>
        simp only [forecastLines, hmin, Except.map] at hok
        exact Except.noConfusion hok
      | some q =>
        simp only [forecastLines, hmin, Except.map] at hok
        injection hok with hout
        subst hout
        refine Or.inl ⟨List.mem_append.2 (Or.inr (List.mem_append.2 (Or.inl
          (List.mem_append.2 (Or.inl (header_mem_forecastBase wi)))))), ?_⟩
        intro hmem
        rcases List.mem_append.1 hmem with h | h
        · exact absurd h (not_mem_preLines (Ne.symm h2) (by decide) (by decide) (by decide)
            (by decide) (by decide))
        · rcases List.mem_append.1 h with h | h
          · rcases List.mem_append.1 h with h | h
            · exact absurd h (not_mem_forecastBase (by decide) (by decide) (by decide)
                (by decide))
            · rcases List.mem_append.1 h with h | h
              · by_cases h30 : (30 : Int) ≤ wi.rain_prob.getD 0
                · rw [if_pos h30] at h
                  simp only [List.mem_cons, List.not_mem_nil, or_false] at h
                  exact absurd h (by decide)
                · rw [if_neg h30] at h
                  exact absurd h (List.not_mem_nil _)
              · by_cases hc : q < 10
                · rw [if_pos hc] at h
                  simp only [List.mem_cons, List.not_mem_nil, or_false] at h
                  exact absurd h (by decide)
                · rw [if_neg hc] at h
                  exact absurd h (List.not_mem_nil _)
          · exact absurd h (not_mem_postLines (by decide) (by decide) (by decide) (by decide)
              (by decide) (by decide))
    · rw [if_neg htr] at hok
      injection hok with hout
      subst hout
      exact Or.inr (hseason d.month)

/-- Witness for C5 at a concrete no-forecast input: the seasonal header
appears and the forecast header does not. -/
theorem C5_exactly_one_weather_section_witness :
    (forecastHeader ∈
        ((generate_full_details_lines "山" "" ⟨2024, 8, 10⟩ none "").toOption.getD []) ∧
      seasonalHeader ∉
        ((generate_full_details_lines "山" "" ⟨2024, 8, 10⟩ none "").toOption.getD [])) ∨
      (forecastHeader ∉
          ((generate_full_details_lines "山" "" ⟨2024, 8, 10⟩ none "").toOption.getD []) ∧
        seasonalHeader ∈
          ((generate_full_details_lines "山" "" ⟨2024, 8, 10⟩ none "").toOption.getD [])) :=
  C5_exactly_one_weather_section "山" "" ⟨2024, 8, 10⟩ none "" (by decide) (by decide) _ rfl

/-- C8: the map-search URL and the trail-notes search URL embed the
percent-encoded destination name after fixed templates, and percent-decoding
that encoded name recovers the original destination name exactly, for every
destination string, multi-byte characters and spaces included. -/
theorem C8_encoded_name_roundtrip (name : String) :
    unquote (quote name) = some name ∧
      mapUrl name = "https://www.google.com/maps/search/?api=1&query=" ++ quote name ∧
      bijiLink name = "https://hiking.biji.co/index.php?q=" ++ (quote name ++ "&node=search") :=
  ⟨quote_unquote_roundtrip name, rfl, rfl⟩

end HikingHelper
